import Mathlib

/-!
Shallow embedding of `src/pages/ProjectDetailsViewerPage.tsx` (UniCollab).

The page holds view state (project, applications, messages, compose state,
loading / error flags, a realtime channel handle) and derives role-based
permissions from the fetched project and the current viewer's identity.
Backend calls are modelled as oracle arguments of type `Except`: the caller
supplies the result that the asynchronous call would have produced, and the
handler's local-state transition and emitted notifications are computed from
it, exactly following the source's success / catch branches.

Enumerations follow `types.ts` as used by the page (status literals
`OPEN / IN_PROGRESS / COMPLETED`, `PENDING / SHORTLISTED / ACCEPTED /
REJECTED`, milestone `COMPLETED`, notification severities).  Record fields
keep the source's snake_case names; only the fields the page reads are
carried.
-/

inductive UserRole
  | RESEARCH_LEAD
  | CONTRIBUTOR
deriving DecidableEq, Repr

inductive ProjectStatus
  | OPEN
  | IN_PROGRESS
  | COMPLETED
  | CANCELLED
deriving DecidableEq, Repr

inductive ApplicationStatus
  | PENDING
  | SHORTLISTED
  | ACCEPTED
  | REJECTED
deriving DecidableEq, Repr

inductive MilestoneStatus
  | PENDING
  | COMPLETED
deriving DecidableEq, Repr

inductive NotificationType
  | SUCCESS
  | ERROR
  | INFO
  | WARNING
deriving DecidableEq, Repr

structure UserRec where
  id : String
  role : UserRole
deriving DecidableEq, Repr

structure Milestone where
  id : String
  description : String
  amount : Nat
  status : MilestoneStatus
deriving DecidableEq, Repr

structure Application where
  id : String
  contributor_user_id : String
  status : ApplicationStatus
deriving DecidableEq, Repr

structure Project where
  id : String
  posted_by_user_id : String
  status : ProjectStatus
  milestones : Option (List Milestone)
deriving DecidableEq, Repr

structure SenderProfile where
  id : String
  name : String
deriving DecidableEq, Repr

structure Message where
  id : String
  sender_user_id : String
  message_text : String
  attachment_url : Option String
  sender_user : Option SenderProfile
deriving DecidableEq, Repr

/-- The record returned by the page's `useMemo` permission derivation. -/
structure Permissions where
  isOwner : Bool
  isAcceptedContributor : Bool
  hasApplied : Bool
  canApply : Bool
  canChat : Bool
  canManage : Bool
  viewerApplicationStatus : Option ApplicationStatus
deriving DecidableEq, Repr

/-- The `useMemo` body deriving permissions from `(user, project, applications)`.
JavaScript strict equality `===` on ids and enum literals is modelled by
`decide (x = y)`; `applications.find(...)` by `List.find?`; the truthiness
coercions `!!acceptedApp` / `!application` by `Option.isSome` / `Option.isNone`;
`application?.status` by `Option.map Application.status`. -/
def derivePermissions (user : Option UserRec) (project : Option Project)
    (applications : List Application) : Permissions :=
  match project, user with
  | some project, some user =>
    let owner := decide (user.id = project.posted_by_user_id)
    let acceptedApp := applications.find? (fun app =>
      decide (app.contributor_user_id = user.id) &&
      decide (app.status = ApplicationStatus.ACCEPTED))
    let application := applications.find? (fun app =>
      decide (app.contributor_user_id = user.id))
    { isOwner := owner
      isAcceptedContributor := acceptedApp.isSome
      hasApplied := application.isSome
      canApply := decide (user.role = UserRole.CONTRIBUTOR) && !owner &&
        application.isNone && decide (project.status = ProjectStatus.OPEN)
      canChat := owner || acceptedApp.isSome
      canManage := owner
      viewerApplicationStatus := application.map Application.status }
  | _, _ =>
    { isOwner := false, isAcceptedContributor := false, hasApplied := false
      canApply := false, canChat := false, canManage := false
      viewerApplicationStatus := none }

/-- Claim C1: for every non-null user and project and every application list,
the derived `canApply` is true iff the user's role is contributor, the user's
id differs from the project's owner id, no application in the list has the
user as contributor, and the project status is OPEN. -/
theorem canApply_iff (user : UserRec) (project : Project)
    (applications : List Application) :
    (derivePermissions (some user) (some project) applications).canApply = true ↔
      (user.role = UserRole.CONTRIBUTOR ∧
       user.id ≠ project.posted_by_user_id ∧
       (∀ app ∈ applications, app.contributor_user_id ≠ user.id) ∧
       project.status = ProjectStatus.OPEN) := by
  simp [derivePermissions, Option.isNone_iff_eq_none, List.find?_eq_none,
    and_assoc]

/-- Claim C10: whenever the project or the user is null, every derived
permission boolean is false and `viewerApplicationStatus` is undefined. -/
theorem derivePermissions_null (user : Option UserRec) (project : Option Project)
    (applications : List Application)
    (h : project = none ∨ user = none) :
    derivePermissions user project applications =
      { isOwner := false, isAcceptedContributor := false, hasApplied := false
        canApply := false, canChat := false, canManage := false
        viewerApplicationStatus := none } := by
  cases project with
  | none => rfl
  | some p =>
    cases user with
    | none => rfl
    | some u =>
      rcases h with h | h <;> exact absurd h (by simp)

/-- Witness for C10 at a concrete null input. -/
theorem derivePermissions_null_witness :
    derivePermissions (some ⟨"u1", UserRole.CONTRIBUTOR⟩) none [] =
      { isOwner := false, isAcceptedContributor := false, hasApplied := false
        canApply := false, canChat := false, canManage := false
        viewerApplicationStatus := none } :=
  derivePermissions_null (some ⟨"u1", UserRole.CONTRIBUTOR⟩) none [] (Or.inl rfl)

/-- The functional update passed to `setMessages` by the realtime INSERT
handler: `prev => prev.some(m => m.id === fullMessage.id) ? prev
: [...prev, fullMessage]`. -/
def ingestRealtimeMessage (prev : List Message) (fullMessage : Message) :
    List Message :=
  if prev.any (fun m => decide (m.id = fullMessage.id)) then prev
  else prev ++ [fullMessage]

/-- Claim C2: if a message with the incoming message's identifier is already
present in the local list the merge is a no-op (so appending the same event
twice equals appending it once); otherwise the composed message is appended
at the end. -/
theorem ingestRealtimeMessage_spec (prev : List Message) (msg : Message) :
    ((∃ m ∈ prev, m.id = msg.id) → ingestRealtimeMessage prev msg = prev) ∧
    ((∀ m ∈ prev, m.id ≠ msg.id) →
      ingestRealtimeMessage prev msg = prev ++ [msg]) ∧
    ingestRealtimeMessage (ingestRealtimeMessage prev msg) msg =
      ingestRealtimeMessage prev msg := by
  refine ⟨?_, ?_, ?_⟩
  · intro h
    simp only [ingestRealtimeMessage, List.any_eq_true, decide_eq_true_eq]
    rw [if_pos h]
  · intro h
    simp only [ingestRealtimeMessage, List.any_eq_true, decide_eq_true_eq]
    rw [if_neg]
    push_neg
    exact h
  · by_cases h : prev.any (fun m => decide (m.id = msg.id)) = true
    · simp [ingestRealtimeMessage, h]
    · simp only [ingestRealtimeMessage, h, if_false, Bool.false_eq_true]
      rw [if_pos]
      simp

/-- Witness for C2 at concrete inputs. -/
theorem ingestRealtimeMessage_witness :
    (∃ m ∈ [Message.mk "m1" "u1" "hi" none none],
        m.id = (Message.mk "m1" "u2" "yo" none none).id) ∧
    ingestRealtimeMessage [Message.mk "m1" "u1" "hi" none none]
        (Message.mk "m1" "u2" "yo" none none) =
      [Message.mk "m1" "u1" "hi" none none] :=
  ⟨by decide,
   (ingestRealtimeMessage_spec [Message.mk "m1" "u1" "hi" none none]
      (Message.mk "m1" "u2" "yo" none none)).1 (by decide)⟩

/-- Compose-state inputs read by `handleSendMessage`.  The selected `File`
is abstracted by its name; only its presence matters to the handler. -/
structure ComposeState where
  projectId : Option String
  user : Option UserRec
  newMessage : String
  attachment : Option String
  messages : List Message
deriving DecidableEq, Repr

/-- Observable outcome of one `handleSendMessage` invocation: the resulting
local state, which backend calls were made, and the notifications posted. -/
structure SendOutcome where
  messages : List Message
  newMessage : String
  attachment : Option String
  uploadCalled : Bool
  sendCalled : Bool
  notifications : List NotificationType
deriving DecidableEq, Repr

/-- JavaScript `String.prototype.trim`: strips leading and trailing
whitespace.  Written over the character list so it is kernel-reducible. -/
def jsTrim (s : String) : String :=
  String.mk (((s.data.dropWhile Char.isWhitespace).reverse.dropWhile
    Char.isWhitespace).reverse)

/-- Continuation of `handleSendMessage` after the optional upload step:
`sendMessage` is called; a backend error throws into the catch branch
(error notification, no state change); on success the returned record, if
any, is appended and the compose fields are cleared. -/
def afterUploadSend (st : ComposeState) (uploadCalled : Bool)
    (sendResult : Except String (Option Message)) : SendOutcome :=
  match sendResult with
  | .error _ =>
    { messages := st.messages, newMessage := st.newMessage
      attachment := st.attachment, uploadCalled := uploadCalled
      sendCalled := true, notifications := [NotificationType.ERROR] }
  | .ok data =>
    { messages := match data with
        | some d => st.messages ++ [d]
        | none => st.messages
      newMessage := "", attachment := none, uploadCalled := uploadCalled
      sendCalled := true, notifications := [] }

/-- `handleSendMessage`.  The guard
`if (!projectId || (!newMessage.trim() && !attachment) || !user) return;`
rejects before any backend call.  If an attachment is selected, `uploadFile`
runs first (its oracle result `uploadResult`: `.ok url` stands for a
response with a public URL, `.error` for an upload error or a missing URL,
both of which throw); a thrown upload error reaches the catch branch before
`sendMessage` is ever called. -/
def handleSendMessage (st : ComposeState)
    (uploadResult : Except String String)
    (sendResult : Except String (Option Message)) : SendOutcome :=
  if st.projectId.isNone || (decide (jsTrim st.newMessage = "") && st.attachment.isNone)
      || st.user.isNone then
    { messages := st.messages, newMessage := st.newMessage
      attachment := st.attachment, uploadCalled := false, sendCalled := false
      notifications := [] }
  else
    match st.attachment with
    | some _ =>
      match uploadResult with
      | .error _ =>
        { messages := st.messages, newMessage := st.newMessage
          attachment := st.attachment, uploadCalled := true
          sendCalled := false, notifications := [NotificationType.ERROR] }
      | .ok _ => afterUploadSend st true sendResult
    | none => afterUploadSend st false sendResult

/-- Claim C5: when the trimmed message text is empty and no attachment is
selected, send is rejected before any backend call: no upload, no
`sendMessage` call, no state change and no notification, whatever the
backend oracles would have answered. -/
theorem handleSendMessage_emptyReject (st : ComposeState)
    (htext : jsTrim st.newMessage = "") (hatt : st.attachment = none)
    (uploadResult : Except String String)
    (sendResult : Except String (Option Message)) :
    handleSendMessage st uploadResult sendResult =
      { messages := st.messages, newMessage := st.newMessage
        attachment := st.attachment, uploadCalled := false
        sendCalled := false, notifications := [] } := by
  simp [handleSendMessage, htext, hatt]

/-- Witness for C5 at a concrete compose state. -/
theorem handleSendMessage_emptyReject_witness :
    (jsTrim "  " = "" ∧ (none : Option String) = none) ∧
    handleSendMessage
        ⟨some "p1", some ⟨"u1", UserRole.CONTRIBUTOR⟩, "  ", none, []⟩
        (.ok "url") (.ok none) =
      { messages := [], newMessage := "  ", attachment := none
        uploadCalled := false, sendCalled := false, notifications := [] } :=
  ⟨⟨by decide, rfl⟩,
   handleSendMessage_emptyReject
     ⟨some "p1", some ⟨"u1", UserRole.CONTRIBUTOR⟩, "  ", none, []⟩
     (by decide) rfl (.ok "url") (.ok none)⟩

/-- Claim C6: on a send attempt with an attachment (guard passed: project id
and user present), a failing upload aborts the send: `sendMessage` is not
called, no message is appended, the compose fields are untouched, and an
error notification is posted. -/
theorem handleSendMessage_uploadFailure (st : ComposeState)
    (hpid : st.projectId.isSome) (huser : st.user.isSome)
    (f : String) (hatt : st.attachment = some f) (e : String)
    (sendResult : Except String (Option Message)) :
    handleSendMessage st (.error e) sendResult =
      { messages := st.messages, newMessage := st.newMessage
        attachment := st.attachment, uploadCalled := true
        sendCalled := false, notifications := [NotificationType.ERROR] } := by
  obtain ⟨pid, hp⟩ := Option.isSome_iff_exists.mp hpid
  obtain ⟨u, hu⟩ := Option.isSome_iff_exists.mp huser
  simp [handleSendMessage, hatt, hp, hu]

/-- Witness for C6 at a concrete compose state. -/
theorem handleSendMessage_uploadFailure_witness :
    ((some "p1" : Option String).isSome = true ∧
     (some (UserRec.mk "u1" UserRole.CONTRIBUTOR)).isSome = true ∧
     (some "cv.pdf" : Option String) = some "cv.pdf") ∧
    handleSendMessage
        ⟨some "p1", some ⟨"u1", UserRole.CONTRIBUTOR⟩, "hello", some "cv.pdf", []⟩
        (.error "network") (.ok none) =
      { messages := [], newMessage := "hello", attachment := some "cv.pdf"
        uploadCalled := true, sendCalled := false
        notifications := [NotificationType.ERROR] } :=
  ⟨⟨rfl, rfl, rfl⟩,
   handleSendMessage_uploadFailure
     ⟨some "p1", some ⟨"u1", UserRole.CONTRIBUTOR⟩, "hello", some "cv.pdf", []⟩
     rfl rfl "cv.pdf" rfl "network" (.ok none)⟩

/-- Observable outcome of one `handleApplicationStatusUpdate` invocation. -/
structure AppUpdateOutcome where
  applications : List Application
  project : Option Project
  notifications : List NotificationType
deriving DecidableEq, Repr

/-- `handleApplicationStatusUpdate`.  Guard: `if (!isOwner || !project)
return;`.  The oracle `updateResult` is the result of
`updateApplicationStatus(applicationId, newStatus)`: an error throws into
the catch branch (error notification, state untouched); on success a
success notification is posted, the applications list is patched by id, and
if the new status is ACCEPTED the project status is set to IN_PROGRESS. -/
def handleApplicationStatusUpdate (isOwner : Bool) (project : Option Project)
    (applications : List Application) (applicationId : String)
    (newStatus : ApplicationStatus)
    (updateResult : Except String Unit) : AppUpdateOutcome :=
  if !isOwner || project.isNone then
    { applications := applications, project := project, notifications := [] }
  else
    match updateResult with
    | .error _ =>
      { applications := applications, project := project
        notifications := [NotificationType.ERROR] }
    | .ok _ =>
      { applications := applications.map (fun a =>
          if a.id = applicationId then { a with status := newStatus } else a)
        project := if newStatus = ApplicationStatus.ACCEPTED then
            project.map (fun p => { p with status := ProjectStatus.IN_PROGRESS })
          else project
        notifications := [NotificationType.SUCCESS] }

/-- Claim C3: on a successful owner status update, position by position the
application with the given id has exactly its status replaced and every
other application is unchanged (the list keeps its length), and if the new
status is ACCEPTED the local project status is set to IN_PROGRESS. -/
theorem handleApplicationStatusUpdate_success (p : Project)
    (applications : List Application) (applicationId : String)
    (newStatus : ApplicationStatus) :
    (handleApplicationStatusUpdate true (some p) applications applicationId
        newStatus (.ok ())).applications.length = applications.length ∧
    (∀ i : Nat, ∀ a : Application, applications[i]? = some a →
      (a.id = applicationId →
        (handleApplicationStatusUpdate true (some p) applications applicationId
          newStatus (.ok ())).applications[i]? = some { a with status := newStatus }) ∧
      (a.id ≠ applicationId →
        (handleApplicationStatusUpdate true (some p) applications applicationId
          newStatus (.ok ())).applications[i]? = some a)) ∧
    (newStatus = ApplicationStatus.ACCEPTED →
      (handleApplicationStatusUpdate true (some p) applications applicationId
        newStatus (.ok ())).project =
        some { p with status := ProjectStatus.IN_PROGRESS }) := by
  refine ⟨by simp [handleApplicationStatusUpdate], ?_, ?_⟩
  · intro i a ha
    constructor
    · intro hid
      simp [handleApplicationStatusUpdate, List.getElem?_map, ha, hid]
    · intro hid
      simp [handleApplicationStatusUpdate, List.getElem?_map, ha, hid]
  · intro hacc
    simp [handleApplicationStatusUpdate, hacc]

/-- Witness for C3 at a concrete owner update accepting application a1. -/
theorem handleApplicationStatusUpdate_success_witness :
    ([Application.mk "a1" "u2" ApplicationStatus.PENDING,
      Application.mk "a2" "u3" ApplicationStatus.PENDING][0]? =
        some (Application.mk "a1" "u2" ApplicationStatus.PENDING)) ∧
    (handleApplicationStatusUpdate true
        (some ⟨"p1", "u1", ProjectStatus.OPEN, none⟩)
        [Application.mk "a1" "u2" ApplicationStatus.PENDING,
         Application.mk "a2" "u3" ApplicationStatus.PENDING]
        "a1" ApplicationStatus.ACCEPTED (.ok ())).applications[0]? =
      some (Application.mk "a1" "u2" ApplicationStatus.ACCEPTED) ∧
    (handleApplicationStatusUpdate true
        (some ⟨"p1", "u1", ProjectStatus.OPEN, none⟩)
        [Application.mk "a1" "u2" ApplicationStatus.PENDING,
         Application.mk "a2" "u3" ApplicationStatus.PENDING]
        "a1" ApplicationStatus.ACCEPTED (.ok ())).project =
      some ⟨"p1", "u1", ProjectStatus.IN_PROGRESS, none⟩ :=
  ⟨rfl,
   ((handleApplicationStatusUpdate_success
      ⟨"p1", "u1", ProjectStatus.OPEN, none⟩
      [Application.mk "a1" "u2" ApplicationStatus.PENDING,
       Application.mk "a2" "u3" ApplicationStatus.PENDING]
      "a1" ApplicationStatus.ACCEPTED).2.1 0
      (Application.mk "a1" "u2" ApplicationStatus.PENDING) rfl).1 rfl,
   (handleApplicationStatusUpdate_success
      ⟨"p1", "u1", ProjectStatus.OPEN, none⟩
      [Application.mk "a1" "u2" ApplicationStatus.PENDING,
       Application.mk "a2" "u3" ApplicationStatus.PENDING]
      "a1" ApplicationStatus.ACCEPTED).2.2 rfl⟩

/-- Claim C7: if the backend status-update call returns an error, an error
notification is posted and both the applications list and the project are
left unchanged. -/
theorem handleApplicationStatusUpdate_failure (p : Project)
    (applications : List Application) (applicationId : String)
    (newStatus : ApplicationStatus) (e : String) :
    handleApplicationStatusUpdate true (some p) applications applicationId
        newStatus (.error e) =
      { applications := applications, project := some p
        notifications := [NotificationType.ERROR] } := by
  simp [handleApplicationStatusUpdate]

/-- Observable outcome of one `handleMarkMilestoneComplete` invocation. -/
structure MilestoneUpdateOutcome where
  project : Option Project
  notifications : List NotificationType
deriving DecidableEq, Repr

/-- `handleMarkMilestoneComplete`.  Guard: `if (!isOwner || !projectId)
return;`.  The oracle `updateResult` is the result of
`updateMilestoneStatus(milestoneId, projectId, COMPLETED)`: an error throws
into the catch branch (error notification); on success the matching
milestone is replaced by the returned record `data` when present
(`data || { ...m, status: COMPLETED }`), otherwise by the local fallback;
a missing `milestones` array stays missing (`prev.milestones?.map`). -/
def handleMarkMilestoneComplete (isOwner : Bool) (projectId : Option String)
    (project : Option Project) (milestoneId : String)
    (updateResult : Except String (Option Milestone)) : MilestoneUpdateOutcome :=
  if !isOwner || projectId.isNone then
    { project := project, notifications := [] }
  else
    match updateResult with
    | .error _ =>
      { project := project, notifications := [NotificationType.ERROR] }
    | .ok data =>
      { project := project.map (fun p =>
          { p with milestones := p.milestones.map (fun ms => ms.map (fun m =>
              if m.id = milestoneId then
                match data with
                | some d => d
                | none => { m with status := MilestoneStatus.COMPLETED }
              else m)) })
        notifications := [NotificationType.SUCCESS] }

/-- Claim C8: on a successful owner milestone update, the milestone with the
given id is replaced by the server-returned record when one is returned and
by the existing milestone with status COMPLETED otherwise, all other
milestones unchanged (position by position); on failure an error
notification is posted and the project is untouched. -/
theorem handleMarkMilestoneComplete_spec (pid : String) (p : Project)
    (ms : List Milestone) (milestoneId : String)
    (hms : p.milestones = some ms) :
    (∀ data : Option Milestone,
      ∃ ms2 : List Milestone,
        (handleMarkMilestoneComplete true (some pid) (some p) milestoneId
          (.ok data)).project = some { p with milestones := some ms2 } ∧
        ∀ i : Nat, ms2[i]? = (ms[i]?).map (fun m =>
          if m.id = milestoneId then
            match data with
            | some d => d
            | none => { m with status := MilestoneStatus.COMPLETED }
          else m)) ∧
    (∀ e : String,
      handleMarkMilestoneComplete true (some pid) (some p) milestoneId
          (.error e) =
        { project := some p, notifications := [NotificationType.ERROR] }) := by
  constructor
  · intro data
    refine ⟨ms.map (fun m =>
      if m.id = milestoneId then
        match data with
        | some d => d
        | none => { m with status := MilestoneStatus.COMPLETED }
      else m), ?_, ?_⟩
    · simp [handleMarkMilestoneComplete, hms]
    · intro i
      simp [List.getElem?_map]
  · intro e
    simp [handleMarkMilestoneComplete]

/-- Witness for C8 at a concrete project with two milestones and a server
response carrying no record (local fallback path). -/
theorem handleMarkMilestoneComplete_witness :
    ((Project.mk "p1" "u1" ProjectStatus.IN_PROGRESS
        (some [Milestone.mk "m1" "d1" 100 MilestoneStatus.PENDING,
               Milestone.mk "m2" "d2" 200 MilestoneStatus.PENDING])).milestones =
      some [Milestone.mk "m1" "d1" 100 MilestoneStatus.PENDING,
            Milestone.mk "m2" "d2" 200 MilestoneStatus.PENDING]) ∧
    (∃ ms2 : List Milestone,
      (handleMarkMilestoneComplete true (some "p1")
        (some (Project.mk "p1" "u1" ProjectStatus.IN_PROGRESS
          (some [Milestone.mk "m1" "d1" 100 MilestoneStatus.PENDING,
                 Milestone.mk "m2" "d2" 200 MilestoneStatus.PENDING])))
        "m1" (.ok none)).project =
        some { Project.mk "p1" "u1" ProjectStatus.IN_PROGRESS
          (some [Milestone.mk "m1" "d1" 100 MilestoneStatus.PENDING,
                 Milestone.mk "m2" "d2" 200 MilestoneStatus.PENDING]) with
            milestones := some ms2 } ∧
      ∀ i : Nat, ms2[i]? =
        (([Milestone.mk "m1" "d1" 100 MilestoneStatus.PENDING,
           Milestone.mk "m2" "d2" 200 MilestoneStatus.PENDING])[i]?).map (fun m =>
          if m.id = "m1" then
            match (none : Option Milestone) with
            | some d => d
            | none => { m with status := MilestoneStatus.COMPLETED }
          else m)) :=
  ⟨rfl,
   (handleMarkMilestoneComplete_spec "p1"
      (Project.mk "p1" "u1" ProjectStatus.IN_PROGRESS
        (some [Milestone.mk "m1" "d1" 100 MilestoneStatus.PENDING,
               Milestone.mk "m2" "d2" 200 MilestoneStatus.PENDING]))
      [Milestone.mk "m1" "d1" 100 MilestoneStatus.PENDING,
       Milestone.mk "m2" "d2" 200 MilestoneStatus.PENDING]
      "m1" rfl).1 none⟩

/-- The page's top-level render branches, in source order:
`if (isLoading) return <Spinner/>; if (error) return <Error/>;
if (!project) return <NotFound/>;` then the loaded page. -/
inductive RenderBranch
  | loadingView
  | errorView
  | notFoundView
  | loadedView
deriving DecidableEq, Repr

/-- Selects the top-level render branch from the page flags. -/
def renderBranch (isLoading : Bool) (error : Option String)
    (project : Option Project) : RenderBranch :=
  if isLoading then RenderBranch.loadingView
  else if error.isSome then RenderBranch.errorView
  else
    match project with
    | none => RenderBranch.notFoundView
    | some _ => RenderBranch.loadedView

/-- The fatal-error page state of the spec: the project fetch failed
(`error` render) or the project is missing (`not found` render). -/
def fatalError (b : RenderBranch) : Bool :=
  match b with
  | RenderBranch.errorView => true
  | RenderBranch.notFoundView => true
  | _ => false

/-- Page flags read by the top-level render plus the chat message list. -/
structure PageState where
  isLoading : Bool
  error : Option String
  project : Option Project
  messages : List Message
deriving DecidableEq, Repr

/-- The `fetchMessages` effect body.  Guard: `if (!canChat || !projectId)
return;`.  On success `setMessages(msgs || [])`; the catch branch only logs
and posts a WARNING notification — it never touches `error`, `isLoading`
or `project`. -/
def fetchMessagesStep (canChat : Bool) (projectId : Option String)
    (s : PageState) (result : Except String (List Message)) :
    PageState × List NotificationType :=
  if !canChat || projectId.isNone then (s, [])
  else
    match result with
    | .ok msgs => ({ s with messages := msgs }, [])
    | .error _ => (s, [NotificationType.WARNING])

/-- Claim C9: at every point exactly one of the three top-level page states
(loading, fatal-error, loaded-with-project) is rendered, and a failing chat
history fetch leaves the rendered top-level branch unchanged — in
particular it never puts the page into the fatal-error state. -/
theorem renderBranch_exclusive_and_chatFailureSafe :
    (∀ (l : Bool) (er : Option String) (pr : Option Project),
      (renderBranch l er pr = RenderBranch.loadingView ∧
        fatalError (renderBranch l er pr) = false ∧
        renderBranch l er pr ≠ RenderBranch.loadedView) ∨
      (renderBranch l er pr ≠ RenderBranch.loadingView ∧
        fatalError (renderBranch l er pr) = true ∧
        renderBranch l er pr ≠ RenderBranch.loadedView) ∨
      (renderBranch l er pr ≠ RenderBranch.loadingView ∧
        fatalError (renderBranch l er pr) = false ∧
        renderBranch l er pr = RenderBranch.loadedView)) ∧
    (∀ (canChat : Bool) (pid : Option String) (s : PageState) (e : String),
      renderBranch ((fetchMessagesStep canChat pid s (.error e)).1).isLoading
          ((fetchMessagesStep canChat pid s (.error e)).1).error
          ((fetchMessagesStep canChat pid s (.error e)).1).project =
        renderBranch s.isLoading s.error s.project) := by
  constructor
  · intro l er pr
    have hgen : ∀ b : RenderBranch,
        (b = RenderBranch.loadingView ∧ fatalError b = false ∧
          b ≠ RenderBranch.loadedView) ∨
        (b ≠ RenderBranch.loadingView ∧ fatalError b = true ∧
          b ≠ RenderBranch.loadedView) ∨
        (b ≠ RenderBranch.loadingView ∧ fatalError b = false ∧
          b = RenderBranch.loadedView) := by
      intro b
      cases b <;> simp [fatalError]
    exact hgen (renderBranch l er pr)
  · intro canChat pid s e
    by_cases hg : (!canChat || pid.isNone) = true
    · simp [fetchMessagesStep, hg]
    · simp [fetchMessagesStep, hg]

/-- Witness for C9 at concrete flags: loaded page, chat fetch failing. -/
theorem renderBranch_chatFailureSafe_witness :
    renderBranch
        ((fetchMessagesStep true (some "p1")
          ⟨false, none, some ⟨"p1", "u1", ProjectStatus.OPEN, none⟩, []⟩
          (.error "net")).1).isLoading
        ((fetchMessagesStep true (some "p1")
          ⟨false, none, some ⟨"p1", "u1", ProjectStatus.OPEN, none⟩, []⟩
          (.error "net")).1).error
        ((fetchMessagesStep true (some "p1")
          ⟨false, none, some ⟨"p1", "u1", ProjectStatus.OPEN, none⟩, []⟩
          (.error "net")).1).project =
      renderBranch false none (some ⟨"p1", "u1", ProjectStatus.OPEN, none⟩) :=
  renderBranch_exclusive_and_chatFailureSafe.2 true (some "p1")
    ⟨false, none, some ⟨"p1", "u1", ProjectStatus.OPEN, none⟩, []⟩ "net"

/-!
Operational model of the realtime-subscription `useEffect` (the block
commented `DEFINITIVE FIX: Stabilized realtime subscription` in the source).

React semantics embedded here:
* An effect with dependency array `[projectId, canChat, addNotification]`
  runs after a render iff its dependency tuple differs from the tuple of the
  previous run (it always runs after the first render).  `addNotification`
  comes from the notifications context and is referentially stable, so the
  effective key is `(projectId, canChat)` — the `(projectId, permission)` key.
* Before re-running the effect, and on unmount, React invokes the cleanup
  returned by the effect's LAST run.  That closure reads the `chatChannel`
  const of the render it was created in, i.e. the state value at that
  render — `setChatChannel` inside the effect body does not change it.
* `setChatChannel` schedules a re-render; since the dependency tuple is
  unchanged at that re-render, the effect does not run again there, so the
  state update is folded into `processRender`.
Channels are numbered by creation order; `openedChannels` / `removedChannels`
record every `supabase.channel(...).subscribe()` / `supabase.removeChannel`
call made.
-/
structure SubState where
  chatChannel : Option Nat
  savedDeps : Option (Option String × Bool)
  savedCleanupCapture : Option (Option Nat)
  nextChannelId : Nat
  openedChannels : List Nat
  removedChannels : List Nat
deriving DecidableEq, Repr

/-- State before the first render: no channel, no effect run yet. -/
def initSubState : SubState :=
  { chatChannel := none, savedDeps := none, savedCleanupCapture := none
    nextChannelId := 0, openedChannels := [], removedChannels := [] }

/-- Runs the saved cleanup: `if (chatChannel) supabase.removeChannel(chatChannel)`
where `chatChannel` is the value the closure captured. -/
def runSavedCleanup (s : SubState) : SubState :=
  match s.savedCleanupCapture with
  | some (some ch) => { s with removedChannels := s.removedChannels ++ [ch] }
  | _ => s

/-- The effect body: `if (canChat && projectId && !chatChannel)` open a new
channel and `setChatChannel(newChannel)`.  The returned cleanup closes over
this render's `chatChannel` value (read before any `setChatChannel`). -/
def runEffectBody (projectId : Option String) (canChat : Bool)
    (s : SubState) : SubState :=
  let captured := s.chatChannel
  if canChat && projectId.isSome && s.chatChannel.isNone then
    let ch := s.nextChannelId
    { s with chatChannel := some ch
             nextChannelId := ch + 1
             openedChannels := s.openedChannels ++ [ch]
             savedCleanupCapture := some captured }
  else
    { s with savedCleanupCapture := some captured }

/-- One committed render with the given `projectId` and `canChat` inputs:
the effect fires iff the dependency key changed, running the stale cleanup
first, then the body; the saved dependency key is updated. -/
def processRender (projectId : Option String) (canChat : Bool)
    (s : SubState) : SubState :=
  if s.savedDeps = some (projectId, canChat) then s
  else
    let s1 := runSavedCleanup s
    let s2 := runEffectBody projectId canChat s1
    { s2 with savedDeps := some (projectId, canChat) }

/-- Unmount: React runs the cleanup saved by the effect's last run. -/
def processUnmount (s : SubState) : SubState :=
  runSavedCleanup s

/-- Lifecycle events delivered to the component. -/
inductive PageEvent
  | render (projectId : Option String) (canChat : Bool)
  | unmount
deriving DecidableEq, Repr

/-- Runs a sequence of lifecycle events from a state. -/
def runEvents : List PageEvent → SubState → SubState
  | [], s => s
  | PageEvent.render pid cc :: es, s => runEvents es (processRender pid cc s)
  | PageEvent.unmount :: es, s => runEvents es (processUnmount s)

/-- Claim C4 (refuted): mounting with chat permission and a project id opens
one subscription, but unmounting removes none — the cleanup closure captured
the `chatChannel` value of the render that ran the effect, which was still
null, so its presence-check fails and `removeChannel` is never called.  The
claim requires the subscription to be released exactly once on unmount. -/
theorem subscription_not_released_on_unmount :
    (runEvents [PageEvent.render (some "p1") true, PageEvent.unmount]
        initSubState).openedChannels = [0] ∧
    (runEvents [PageEvent.render (some "p1") true, PageEvent.unmount]
        initSubState).removedChannels = [] := by
  constructor <;> rfl

/-- The half of claim C4 that does hold: whenever the stored channel handle
is non-null, the effect body opens no further channel, so a render never
re-opens a subscription while one is already recorded in `chatChannel`. -/
theorem no_reopen_while_channel_stored (projectId : Option String)
    (canChat : Bool) (s : SubState) (ch : Nat)
    (h : s.chatChannel = some ch) :
    (processRender projectId canChat s).openedChannels = s.openedChannels := by
  by_cases hdeps : s.savedDeps = some (projectId, canChat)
  · simp [processRender, hdeps]
  · cases hc : s.savedCleanupCapture with
    | none =>
      simp [processRender, hdeps, runSavedCleanup, runEffectBody, hc, h]
    | some c =>
      cases c <;>
        simp [processRender, hdeps, runSavedCleanup, runEffectBody, hc, h]

/-- Witness for the holding half of C4 at a concrete state. -/
theorem no_reopen_while_channel_stored_witness :
    ((initSubState.chatChannel = some 7 → False) ∨
      (processRender (some "p2") true
        { initSubState with chatChannel := some 7 }).openedChannels =
        ({ initSubState with chatChannel := some 7 } : SubState).openedChannels) :=
  Or.inr (no_reopen_while_channel_stored (some "p2") true
    { initSubState with chatChannel := some 7 } 7 rfl)

/-- Witness for C1 at a concrete eligible contributor. -/
theorem canApply_iff_witness :
    (derivePermissions (some ⟨"u2", UserRole.CONTRIBUTOR⟩)
        (some ⟨"p1", "u1", ProjectStatus.OPEN, none⟩) []).canApply = true :=
  (canApply_iff ⟨"u2", UserRole.CONTRIBUTOR⟩
      ⟨"p1", "u1", ProjectStatus.OPEN, none⟩ []).mpr
    ⟨rfl, by decide, by simp, rfl⟩

/-- Witness for C7 at a concrete failing update. -/
theorem handleApplicationStatusUpdate_failure_witness :
    handleApplicationStatusUpdate true
        (some ⟨"p1", "u1", ProjectStatus.OPEN, none⟩)
        [Application.mk "a1" "u2" ApplicationStatus.PENDING] "a1"
        ApplicationStatus.ACCEPTED (.error "net") =
      { applications := [Application.mk "a1" "u2" ApplicationStatus.PENDING]
        project := some ⟨"p1", "u1", ProjectStatus.OPEN, none⟩
        notifications := [NotificationType.ERROR] } :=
  handleApplicationStatusUpdate_failure ⟨"p1", "u1", ProjectStatus.OPEN, none⟩
    [Application.mk "a1" "u2" ApplicationStatus.PENDING] "a1"
    ApplicationStatus.ACCEPTED "net"
